import Mathlib

/-!
Shallow embedding of the fulfillment core of the proxy-shop bot
(`src/balance.js`, `src/db.js`, `src/proxySellerApi.js`, `src/cryptoBot.js`,
the bot handlers in `src/bot.js`, and the SQL migrations).

Modelling conventions:
* JavaScript numbers that hold money are modelled as `Rat` (exact rationals);
  `x.toFixed(2)` followed by `parseFloat` is modelled by `toFixed2`, rounding
  to the nearest multiple of 1/100 (half up).  the `-0` that JavaScript produces from
  `parseFloat` of `-0.00` equals `0` in this model, matching its observable
  arithmetic behaviour.
* JavaScript values that may be `null`/`undefined`/`NaN` are modelled with
  `Option`; an absent or `NaN` numeric field is `none`.
* Throwing JavaScript code is modelled with `Except`; the Postgres
  `BEGIN`/`COMMIT`/`ROLLBACK` wrapper `withTransaction` (src/db.js) becomes a
  function that keeps the final state of the callback on success and restores the
  initial state on error.
* Concurrency (interleaved database statements, overlapping `setInterval`
  ticks) is modelled by explicit event sequences applied to a shared state,
  one atomic step per database statement / synchronous code segment.
-/

/-! ## Money: `parseFloat(x.toFixed(2))` -/

/-- Model of `parseFloat(x.toFixed(2))` from `src/balance.js`: rounds a
rational to the nearest multiple of 1/100 (ties rounded up). -/
def toFixed2 (x : ℚ) : ℚ := (⌊x * 100 + 1 / 2⌋ : ℚ) / 100

/-! ## Balance Ledger (`src/balance.js`)

`userBalances` is a plain JS object; an absent user and a user stored with
balance `0` are indistinguishable through this module (`userBalances[u] || 0`
reads and the `if (!userBalances[u]) userBalances[u] = 0` registration both
treat them alike), so the store is modelled as a total function defaulting
to `0`. -/

/-- Model of the `userBalances` object of `src/balance.js`. -/
def BalStore := Nat → ℚ

/-- `getBalance(userId)`: `userBalances[userId] || 0`. -/
def getBalance (st : BalStore) (userId : Nat) : ℚ := st userId

/-- `addBalance(userId, amount)`: registers an absent user at `0`, then
stores `parseFloat((old + amount).toFixed(2))` and returns it. -/
def addBalance (st : BalStore) (userId : Nat) (amount : ℚ) : BalStore × ℚ :=
  let nb := toFixed2 (st userId + amount)
  (fun v => if v = userId then nb else st v, nb)

/-- `subtractBalance(userId, amount)`: computes
`parseFloat((old - amount).toFixed(2))`; if that is negative it throws
(`Недостаточно средств на балансе`) leaving the stored balance unchanged,
otherwise it stores and returns the new balance. -/
def subtractBalance (st : BalStore) (userId : Nat) (amount : ℚ) :
    BalStore × Except String ℚ :=
  let nb := toFixed2 (st userId - amount)
  if nb < 0 then (st, .error "Недостаточно средств на балансе")
  else (fun v => if v = userId then nb else st v, .ok nb)

/-- One call into the balance module of `src/balance.js`. -/
inductive BalOp where
  | get (userId : Nat)
  | add (userId : Nat) (amount : ℚ)
  | sub (userId : Nat) (amount : ℚ)

/-- State reached after one balance-module call (a thrown
`subtractBalance` leaves the store unchanged, as in the source). -/
def applyBalOp (st : BalStore) : BalOp → BalStore
  | .get _ => st
  | .add u a => (addBalance st u a).1
  | .sub u a => (subtractBalance st u a).1

/-- State reached after a sequence of balance-module calls. -/
def applyBalOps (st : BalStore) : List BalOp → BalStore
  | [] => st
  | op :: ops => applyBalOps (applyBalOp st op) ops

/-- The empty `userBalances = {}` object: every user reads as `0`. -/
def emptyBalStore : BalStore := fun _ => 0

/-! ## Markup schedule (`src/proxySellerApi.js`, `calculateMarkupPercent`) -/

/-- Literal translation of `calculateMarkupPercent(periodDays)` from
`src/proxySellerApi.js` lines 45-75: base markup 80, reduction chosen by the
period breakpoints, result clamped at 0.  (Note: both the `<= 90` branch and
the final `else` branch set the reduction to 40, although the comment on the
`else` branch announces 30% for 180 days.) -/
def calculateMarkupPercent (periodDays : Int) : Int :=
  let baseMarkup : Int := 80
  let markupReduction : Int :=
    if periodDays ≤ 7 then 0
    else if periodDays ≤ 14 then 10
    else if periodDays ≤ 30 then 20
    else if periodDays ≤ 60 then 30
    else if periodDays ≤ 90 then 40
    else 40
  max 0 (baseMarkup - markupReduction)

/-! ## Identifier Issuer (`src/db.js`, `generateCmId`) -/

/-- The Postgres expression `LPAD(s, 6, ...)` padding with zeros: left-pads to six characters with `0`,
truncating to the leftmost six characters when longer. -/
def lpad6 (s : String) : String :=
  if s.length ≥ 6 then ⟨s.data.take 6⟩
  else ⟨List.replicate (6 - s.length) '0' ++ s.data⟩

/-- `Date.now().toString().slice(-6)`: the last six characters of the
decimal representation of the current epoch-milliseconds value. -/
def lastSix (n : Nat) : String :=
  let s := toString n
  ⟨s.data.drop (s.length - min 6 s.length)⟩

/-- Model of `generateCmId` from `src/db.js` lines 41-52.  `poolOk` models
`pool` being initialised (otherwise the function throws), `seqOk` models the
`nextval` query on `cm_id_seq` succeeding with value `seqVal`; when the query
fails the function falls back to a timestamp-derived identifier built from
`Date.now() = nowMs`. -/
def generateCmId (poolOk : Bool) (seqOk : Bool) (seqVal : Nat) (nowMs : Nat) :
    Except String String :=
  if !poolOk then .error "Pool не инициализирован"
  else if seqOk then .ok ("CM" ++ lpad6 (toString seqVal))
  else .ok ("CM" ++ lastSix nowMs)

/-! ## Resource Claim Store (`user_proxies` table)

The table is created in `src/bot.js` (`ensureUserProxiesTable`) and carries
`UNIQUE (proxy_id)` from `src/migrations/002_add_unique_proxy_id.sql`.
Rows are modelled with the columns the purchase flow reads or writes;
`date_start`/`date_end` are parsed and stored by the source but never read
back by any code relevant to the claims, so they are carried verbatim as
optional strings. -/

/-- One row of the `user_proxies` table. -/
structure ProxyRow where
  telegramId : Nat
  cmId : String
  proxyId : Int
  orderId : Option Int
  ptype : String
  login : String
  password : Option String
  ip : String
  port : Option Int
  portHttp : Option Int
  portSocks : Option Int
  country : Option String
  dateStart : Option String
  dateEnd : Option String
  status : String
deriving DecidableEq

/-- `SELECT ... FROM user_proxies WHERE proxy_id = $1` (first matching row). -/
def findByProxyId (rows : List ProxyRow) (pid : Int) : Option ProxyRow :=
  rows.find? (fun r => r.proxyId = pid)

/-- Number of stored rows holding the external key `pid`. -/
def countKey (rows : List ProxyRow) (pid : Int) : Nat :=
  (rows.filter (fun r => r.proxyId = pid)).length

/-- Outcome of one atomic database statement against `user_proxies`. -/
inductive OpOutcome where
  | readOnly
  | inserted
  | duplicateSkipped
deriving DecidableEq

/-- `INSERT INTO user_proxies ...` under the `unique_proxy_id` constraint:
the database accepts the row atomically iff no row with the same `proxy_id`
exists; otherwise it raises `duplicate key ... proxy_id`, which the buy
handler catches and turns into a skip (`continue`), never an application
error.  The second component reports which of the two happened. -/
def insertUnique (rows : List ProxyRow) (row : ProxyRow) :
    List ProxyRow × OpOutcome :=
  if (findByProxyId rows row.proxyId).isSome then (rows, .duplicateSkipped)
  else (rows ++ [row], .inserted)

/-- One atomic statement of a concurrent claim attempt: the pre-insert
ownership `SELECT` (read-only) or the constrained `INSERT`. -/
inductive ClaimOp where
  | check (pid : Int)
  | insert (row : ProxyRow)
deriving DecidableEq

/-- Effect of one atomic claim statement on the store. -/
def applyClaimOp (rows : List ProxyRow) : ClaimOp → List ProxyRow × OpOutcome
  | .check _ => (rows, .readOnly)
  | .insert row => insertUnique rows row

/-- Store reached after an arbitrary interleaving (sequence) of atomic
claim statements issued by any number of concurrent purchase flows. -/
def applyClaimOps (rows : List ProxyRow) : List ClaimOp → List ProxyRow
  | [] => rows
  | op :: ops => applyClaimOps (applyClaimOp rows op).1 ops

/-- Whether an atomic statement is an insert attempt on key `pid`. -/
def isInsertOn (pid : Int) : ClaimOp → Bool
  | .check _ => false
  | .insert row => row.proxyId = pid

/-! ## The per-candidate claim step of the buy handler
(`src/bot.js`, buy action lines 1576-1671) -/

/-- One proxy record as returned by `getProxyCredentials` (after the buy
enrichment step of the handler, `country: p.country OR order.country OR empty`).
Numeric fields are post-`Number(...)` values, `none` meaning
absent/`NaN`. -/
structure ApiProxy where
  id : Option Int
  orderId : Option Int
  login : Option String
  password : Option String
  ip : Option String
  port : Option Int
  portHttp : Option Int
  portSocks : Option Int
  country : Option String
  dateStart : Option String
  dateEnd : Option String
deriving DecidableEq

/-- JavaScript truthiness of an optional string (`none`, `undefined` and
`""` are falsy). -/
def truthyStr : Option String → Bool
  | none => false
  | some s => s ≠ ""

/-- JavaScript truthiness of an optional number (`none`/`NaN` and `0` are
falsy). -/
def truthyInt : Option Int → Bool
  | none => false
  | some v => v ≠ 0

/-- One row of the `users` table (`telegram_id`, `balance`,
`proxies_purchased`). -/
structure UserRow where
  telegramId : Nat
  balance : ℚ
  proxiesPurchased : Nat
deriving DecidableEq

/-- Database state threaded through the purchase transaction: the `users`
table, the `user_proxies` table, and the last value handed out by the
`cm_id_seq` sequence. -/
structure DbState where
  users : List UserRow
  userProxies : List ProxyRow
  cmSeq : Nat
deriving DecidableEq

/-- `SELECT ... FROM users WHERE telegram_id = $1`. -/
def findUser (db : DbState) (uid : Nat) : Option UserRow :=
  db.users.find? (fun r => r.telegramId = uid)

/-- `UPDATE users SET balance = balance + $1 WHERE telegram_id = $2`
(with a negative `$1` for the debit). -/
def updateBalance (users : List UserRow) (uid : Nat) (delta : ℚ) :
    List UserRow :=
  users.map (fun r =>
    if r.telegramId = uid then { r with balance := r.balance + delta } else r)

/-- `UPDATE users SET proxies_purchased = proxies_purchased + $1
WHERE telegram_id = $2`. -/
def updatePurchased (users : List UserRow) (uid : Nat) (n : Nat) :
    List UserRow :=
  users.map (fun r =>
    if r.telegramId = uid then
      { r with proxiesPurchased := r.proxiesPurchased + n } else r)

/-- How one candidate record was disposed of by the claim loop.  Every
constructor corresponds to a `continue`/success path of the source; none of
them aborts the transaction (the only rethrow in the source is a
non-duplicate insert error, which the pure model cannot produce). -/
inductive ClaimOutcome where
  | noId
  | ownedByOther
  | alreadyOwn
  | missingLoginOrIp
  | raceDuplicate
  | claimed (row : ProxyRow)
deriving DecidableEq

/-- JavaScript `x || y` on optional numbers: the left value when truthy,
else the right value. -/
def jsOrInt (a b : Option Int) : Option Int := if truthyInt a then a else b

/-- `Number(p.port_http || p.port_socks || p.port) || null`: the first
truthy port, demoted to `null` when the whole expression is falsy. -/
def jsPort (portHttp portSocks port : Option Int) : Option Int :=
  let v := jsOrInt portHttp (jsOrInt portSocks port)
  if truthyInt v then v else none

/-- The body of `for (const p of enrichedProxies)` in the buy action
(lines 1576-1671), for a single candidate `p`:
skip candidates without a truthy `proxy_id`; skip keys already present
(owned by another user, or idempotently by the buyer); generate a CM id
from the sequence; skip records lacking login or ip; insert under the
unique constraint, a duplicate-key failure (race lost) being skipped. -/
def claimCandidate (db : DbState) (userId : Nat) (proxyType : String)
    (orderId : Option Int) (p : ApiProxy) : DbState × ClaimOutcome :=
  match p.id with
  | none => (db, .noId)
  | some pid =>
    if pid = 0 then (db, .noId)
    else match findByProxyId db.userProxies pid with
    | some row =>
      if row.telegramId ≠ userId then (db, .ownedByOther)
      else (db, .alreadyOwn)
    | none =>
      -- `generateCmId()` inside the open transaction: the sequence is
      -- available, so it returns CM + LPAD(nextval) and advances the
      -- sequence (this happens before the login/ip validity check).
      let cmId := "CM" ++ lpad6 (toString (db.cmSeq + 1))
      let db := { db with cmSeq := db.cmSeq + 1 }
      let proxyOrderId := match p.orderId with
        | some v => some v
        | none => orderId
      if ¬ (truthyStr p.login ∧ truthyStr p.ip) then (db, .missingLoginOrIp)
      else
        let row : ProxyRow := {
          telegramId := userId
          cmId := cmId
          proxyId := pid
          orderId := proxyOrderId
          ptype := proxyType
          login := p.login.getD ""
          password := p.password
          ip := p.ip.getD ""
          port := jsPort p.portHttp p.portSocks p.port
          portHttp := p.portHttp
          portSocks := p.portSocks
          country := p.country
          dateStart := p.dateStart
          dateEnd := p.dateEnd
          status := "active" }
        match insertUnique db.userProxies row with
        | (rows, .inserted) => ({ db with userProxies := rows }, .claimed row)
        | (_, _) => (db, .raceDuplicate)

/-! ## Payment Confirmation Loop (`src/bot.js`, `startPaymentCheck`,
lines 542-701)

`startPaymentCheck` registers a `setInterval` callback firing every five
seconds.  Each firing synchronously increments `checkCount` and then
`await`s `checkInvoiceStatus`; the continuation after the `await` runs when
the HTTP response arrives.  Because the status request may outlast the
five-second interval, several ticks can be in flight at once.  The model
makes each of the two synchronous segments of a tick atomic:

* `fire` — the interval fires (only possible while the interval has not
  been cleared): `checkCount++` and the status request is started;
* `resolve i s` — the status request of in-flight tick `i` returns `s`
  (`none` models `checkInvoiceStatus` returning `null` or throwing, which
  the handler treats alike), and the rest of the callback body runs:
  on `paid` it clears the interval, credits the balance of the user in the
  `users` table (`UPDATE users SET balance = balance + $1`), and clears the
  deposit fields of the session; on `expired` (or budget exhaustion) it
  clears the interval and the session without crediting.

The scheduler (network timing) chooses the order of events. -/

/-- Phase of one `setInterval` tick of `startPaymentCheck`. -/
inductive TickPhase where
  | awaiting
  | finished
deriving DecidableEq

/-- Shared state read and written by the payment-check ticks for one user:
whether `clearInterval` has run, the `checkCount` counter, the
database balance, how many times the credit `UPDATE` has executed (ghost),
and whether the session still carries the deposit fields. -/
structure PayState where
  cleared : Bool
  checkCount : Nat
  balance : ℚ
  credits : Nat
  sessionDeposit : Bool
  ticks : List TickPhase
deriving DecidableEq

/-- Invoice status observed by one tick: `none` for a failed/`null` status
lookup, otherwise the status string of the invoice
(`paid` / `expired` / `active`). -/
inductive PayEvent where
  | fire
  | resolve (i : Nat) (status : Option String)
deriving DecidableEq

/-- `maxChecks` of `startPaymentCheck`: 180 five-second checks. -/
def maxChecks : Nat := 180

/-- One atomic scheduler step of the payment-check loop (deposit amount
`amount`).  A `fire` while the interval is cleared, or a `resolve` of a
tick that is not in flight, changes nothing. -/
def payStep (amount : ℚ) (st : PayState) : PayEvent → PayState
  | .fire =>
    if st.cleared then st
    else { st with checkCount := st.checkCount + 1,
                   ticks := st.ticks ++ [.awaiting] }
  | .resolve i status =>
    if h : i < st.ticks.length then
      if st.ticks.get ⟨i, h⟩ = .awaiting then
        let st := { st with ticks := st.ticks.set i .finished }
        match status with
        | none =>
          -- `!invoiceStatus`: keep polling, stop silently once over budget
          if st.checkCount ≥ maxChecks then { st with cleared := true } else st
        | some s =>
          if s = "paid" then
            -- clearInterval, credit the balance, clear the session
            { st with cleared := true,
                      balance := st.balance + amount,
                      credits := st.credits + 1,
                      sessionDeposit := false }
          else if s = "expired" ∨ st.checkCount ≥ maxChecks then
            { st with cleared := true, sessionDeposit := false }
          else st
      else st
    else st

/-- State after a sequence of scheduler steps. -/
def payRun (amount : ℚ) (st : PayState) : List PayEvent → PayState
  | [] => st
  | e :: es => payRun amount (payStep amount st e) es

/-- State of `startPaymentCheck` just after registering the interval:
no tick fired yet, deposit session fields set. -/
def payInit (balance0 : ℚ) : PayState :=
  { cleared := false, checkCount := 0, balance := balance0,
    credits := 0, sessionDeposit := true, ticks := [] }

/-! ## Purchase Orchestrator (`src/bot.js`, `bot.action(/^buy_.../)`,
lines 1411-1769)

The whole purchase runs inside `withTransaction` (src/db.js lines 59-74):
`BEGIN`, the callback, `COMMIT` on success; any thrown error triggers
`ROLLBACK`, restoring every table to its pre-transaction state.  External
API behaviour is supplied by oracles:

* `price`  — the outcome of `psCalculatePrice` (its resolved
  `finalUsd || finalPrice || 0`, or a thrown error);
* `buy`    — the outcome of `psBuyProxy`;
* `fetch`  — the outcome of `getProxyCredentials` on each numbered attempt
  of the credential-retrieval loop. -/

/-- Parameters of the pending order kept in `ctx.session.order`
(built by the `qty_...` handler, lines 1845-1855). -/
structure Order where
  otype : String
  continent : String
  country : String
  countryName : String
  periodDays : Int
  quantity : Int
  amount : ℚ
deriving DecidableEq

/-- The `proxy_id` field of the buy-API response (`orderInfo.proxy_id`):
absent/falsy, a truthy scalar (after `Number(...)`), or an array whose
entries are post-`Number(...)` values (`none` = `NaN`, dropped by the
`filter(id => !isNaN(id))`). -/
inductive ProxyIdField where
  | absent
  | scalar (v : Int)
  | array (vs : List (Option Int))
deriving DecidableEq

/-- `buyResult.data` normalised: the combined
`orderInfo.orderId || orderInfo.order_id` reference, the `proxy_id` field,
and the truthy numeric `id`s of `orderInfo.items` / `orderInfo.proxies`
entries (`none` for an entry whose `id` is falsy and hence not pushed). -/
structure OrderData where
  orderId : Option Int
  proxyIdField : ProxyIdField
  items : List (Option Int)
  proxies : List (Option Int)
deriving DecidableEq

/-- Result of `psBuyProxy`: the response `status` and optional `data`. -/
structure BuyResult where
  status : String
  data : Option OrderData
deriving DecidableEq

/-- Lines 1482-1504: collect the known purchased proxy ids from the buy
response, in source order (the `proxy_id` array/scalar, then
`items`, then `proxies`). -/
def extractBoughtIds : Option OrderData → List Int
  | none => []
  | some d =>
    (match d.proxyIdField with
      | .absent => []
      | .scalar v => [v]
      | .array vs => vs.filterMap id)
    ++ d.items.filterMap id ++ d.proxies.filterMap id

/-- External-API behaviour for one purchase run. -/
structure BuyOracles where
  price : Except String ℚ
  buy : Except String BuyResult
  fetch : Nat → Except String (List ApiProxy)

/-- Errors thrown inside the purchase transaction, one constructor per
`throw` site of the buy action:
`priceApiError` = `psCalculatePrice` threw;
`priceUnavailable` = `Не удалось рассчитать цену`;
`depositFirst` = `Сначала пополните баланс`;
`insufficientFunds` = `Недостаточно средств! ...`;
`apiBuyFailed` = `Не удалось купить прокси: ...`;
`fetchExhausted` = `Не удалось получить данные прокси после 12 попыток`
(or the in-budget throw rethrown at the final attempt);
`zeroClaims` = `Не удалось сохранить ни одного прокси в БД`. -/
inductive BuyErr where
  | priceApiError (msg : String)
  | priceUnavailable
  | depositFirst
  | insufficientFunds (balance need : ℚ)
  | apiBuyFailed (msg : String)
  | fetchExhausted (msg : String)
  | zeroClaims
deriving DecidableEq

/-- Ghost instrumentation of a purchase run: whether the debit `UPDATE`
was executed, and how many external price / buy / credential-fetch calls
were made. -/
structure BuyGhost where
  priceCalls : Nat
  debited : Bool
  buyCalls : Nat
  fetchCalls : Nat
deriving DecidableEq

/-- Ghost state before anything ran. -/
def ghost0 : BuyGhost := ⟨0, false, 0, 0⟩

/-- `maxAttempts` of the credential-retrieval loop: 12. -/
def maxAttempts : Nat := 12

/-- Lines 1539-1560: choose the candidate records of one fetch round, in
strict priority order: (1) records whose numeric `id` is among the known
purchased ids, (2) else records whose `order_id` equals a truthy order
reference, (3) else — last resort — the records with the largest ids, up
to the requested quantity. -/
def pickCandidates (boughtIds : List Int) (orderId : Option Int)
    (quantity : Int) (list : List ApiProxy) : List ApiProxy :=
  if ¬ boughtIds.isEmpty then
    list.filter (fun p => match p.id with
      | some v => boughtIds.contains v
      | none => false)
  else
    match orderId with
    | some oid =>
      if oid ≠ 0 then list.filter (fun p => p.orderId = some oid)
      else (list.mergeSort
          (fun a b => (b.id.getD 0) ≤ (a.id.getD 0))).take quantity.toNat
    | none =>
      (list.mergeSort
          (fun a b => (b.id.getD 0) ≤ (a.id.getD 0))).take quantity.toNat

/-- Lines 1576-1671: run `claimCandidate` over the enriched candidate
records, stopping once `quantity` rows have been saved in this purchase. -/
def claimLoop (userId : Nat) (proxyType : String) (orderId : Option Int)
    (quantity : Int) (db : DbState) (saved : List ProxyRow) :
    List ApiProxy → DbState × List ProxyRow
  | [] => (db, saved)
  | p :: rest =>
    if (saved.length : Int) ≥ quantity then (db, saved)
    else
      match claimCandidate db userId proxyType orderId p with
      | (db', .claimed row) =>
        claimLoop userId proxyType orderId quantity db' (saved ++ [row]) rest
      | (db', _) =>
        claimLoop userId proxyType orderId quantity db' saved rest

/-- The candidate enrichment `country: p.country OR order.country OR empty`
(lines 1569-1572). -/
def enrich (orderCountry : String) (p : ApiProxy) : ApiProxy :=
  let c := if truthyStr p.country then p.country.getD "" else orderCountry
  { p with country := some c }

/-- The credential-retrieval loop (lines 1520-1686):
`while (savedProxies.length < quantity && attempts < maxAttempts)`.
`fuel` is the number of iterations still allowed (`maxAttempts -
attempts`); each round consumes one `fetch` attempt.  A fetch error or an
empty response within budget waits and retries; over budget it becomes the
final `fetchExhausted` throw.  A non-empty response is filtered into
candidates and fed to the claim loop. -/
def fetchLoop (oc : BuyOracles) (userId : Nat) (proxyType : String)
    (orderId : Option Int) (boughtIds : List Int) (orderCountry : String)
    (quantity : Int) :
    Nat → Nat → DbState → List ProxyRow → BuyGhost →
    (Except BuyErr (DbState × List ProxyRow)) × BuyGhost
  | 0, _, db, saved, g => (.ok (db, saved), g)
  | fuel + 1, attempts, db, saved, g =>
    if (saved.length : Int) ≥ quantity then (.ok (db, saved), g)
    else
      let attempts := attempts + 1
      let g := { g with fetchCalls := g.fetchCalls + 1 }
      match oc.fetch attempts with
      | .error e =>
        if attempts ≥ maxAttempts then
          (.error (.fetchExhausted e), g)
        else
          fetchLoop oc userId proxyType orderId boughtIds orderCountry
            quantity fuel attempts db saved g
      | .ok list =>
        if list.isEmpty then
          if attempts < maxAttempts then
            fetchLoop oc userId proxyType orderId boughtIds orderCountry
              quantity fuel attempts db saved g
          else
            (.error (.fetchExhausted
              "API не вернул данные прокси после всех попыток"), g)
        else
          let candidates := pickCandidates boughtIds orderId quantity list
          if candidates.isEmpty ∧ attempts < maxAttempts then
            fetchLoop oc userId proxyType orderId boughtIds orderCountry
              quantity fuel attempts db saved g
          else
            let enriched := candidates.map (enrich orderCountry)
            match claimLoop userId proxyType orderId quantity db saved
                enriched with
            | (db', saved') =>
              if (saved'.length : Int) ≥ quantity then (.ok (db', saved'), g)
              else
                fetchLoop oc userId proxyType orderId boughtIds orderCountry
                  quantity fuel attempts db' saved' g

/-- The `withTransaction` callback of the buy action (lines 1433-1709):
price resolution, row-locked balance check, debit, external buy order,
credential retrieval and claiming, the zero-claims check, the
purchased-counter update, and the final balance read.  Returns the final
database state, the saved rows, the charged total and the final balance —
or the thrown error.  (The `INSERT` of a missing user before the
`Сначала пополните баланс` throw is rolled back with the transaction and
is therefore not observable.) -/
def buyTx (userId : Nat) (order : Order) (oc : BuyOracles) (db : DbState) :
    (Except BuyErr (DbState × List ProxyRow × ℚ × ℚ)) × BuyGhost :=
  let priceStep : Except BuyErr ℚ × BuyGhost :=
    if order.amount > 0 then (.ok order.amount, ghost0)
    else
      let g := { ghost0 with priceCalls := 1 }
      match oc.price with
      | .error e => (.error (.priceApiError e), g)
      | .ok p => if p ≤ 0 then (.error .priceUnavailable, g) else (.ok p, g)
  match priceStep with
  | (.error e, g) => (.error e, g)
  | (.ok totalPrice, g) =>
    match findUser db userId with
    | none => (.error .depositFirst, g)
    | some userRow =>
      if userRow.balance < totalPrice then
        (.error (.insufficientFunds userRow.balance totalPrice), g)
      else
        let db := { db with users := updateBalance db.users userId (-totalPrice) }
        let g := { g with debited := true, buyCalls := 1 }
        match oc.buy with
        | .error e => (.error (.apiBuyFailed e), g)
        | .ok buyResult =>
          let orderInfo := if buyResult.status = "success" then buyResult.data
                           else none
          let orderId := orderInfo.bind (fun d => d.orderId)
          let boughtIds := extractBoughtIds orderInfo
          let proxyType := if order.otype = "private_ipv6" then "ipv6"
                           else "ipv4"
          match fetchLoop oc userId proxyType orderId boughtIds order.country
              order.quantity maxAttempts 0 db [] g with
          | (.error e, g) => (.error e, g)
          | (.ok (db, saved), g) =>
            if saved.isEmpty then (.error .zeroClaims, g)
            else
              let db := { db with
                users := updatePurchased db.users userId saved.length }
              let finalBalance :=
                match findUser db userId with
                | some r => r.balance
                | none => 0
              (.ok (db, saved, totalPrice, finalBalance), g)

/-- User-visible outcome of the buy action. -/
inductive BuyOutcome where
  | noOrderData
  | invalidParams
  | purchased (proxies : List ProxyRow) (totalCharged newBalance : ℚ)
  | failed (e : BuyErr)
deriving DecidableEq

/-- Result of one full run of the buy action: the database state after
commit or rollback, the outcome, and the ghost instrumentation. -/
structure BuyRun where
  db : DbState
  outcome : BuyOutcome
  ghost : BuyGhost
deriving DecidableEq

/-- The buy action handler (lines 1411-1769): session-order presence
check, parameter validation (`!type || !country || !periodDays ||
!quantity || quantity <= 0 || quantity > 100`), then the transaction; on
any thrown error `withTransaction` rolls the database back to its initial
state. -/
def buyAction (userId : Nat) (session : Option Order) (oc : BuyOracles)
    (db : DbState) : BuyRun :=
  match session with
  | none => ⟨db, .noOrderData, ghost0⟩
  | some order =>
    if order.otype = "" ∨ order.country = "" ∨ order.periodDays = 0 ∨
        order.quantity ≤ 0 ∨ order.quantity > 100 then
      ⟨db, .invalidParams, ghost0⟩
    else
      match buyTx userId order oc db with
      | (.ok (db', saved, price, bal), g) => ⟨db', .purchased saved price bal, g⟩
      | (.error e, g) => ⟨db, .failed e, g⟩

/-! ## Auxiliary definitions and concrete fixtures used by the claims -/

deriving instance DecidableEq for Except

/-- The constraint the spec puts on ledger sequences: `addBalance` is only
invoked with a non-negative amount (deposits); the other operations are
unconstrained. -/
def addNonNeg : BalOp → Bool
  | .add _ a => decide (0 ≤ a)
  | _ => true

/-- Fixture: a claim row for user 1 holding external key 7. -/
def claimRowA : ProxyRow :=
  ⟨1, "CM000001", 7, none, "ipv4", "l1", none, "10.0.0.1",
    none, none, none, none, none, none, "active"⟩

/-- Fixture: a claim row for user 2 racing for the same external key 7. -/
def claimRowB : ProxyRow :=
  ⟨2, "CM000002", 7, none, "ipv4", "l2", none, "10.0.0.2",
    none, none, none, none, none, none, "active"⟩

/-- Fixture: an empty database. -/
def claimDb0 : DbState := ⟨[], [], 0⟩

/-- Fixture: a credential record with external key 11 from order 2. -/
def claimProxyB : ApiProxy :=
  ⟨some 11, some 2, some "user1", some "pass1", some "10.0.0.5",
    none, some 8080, none, some "DEU", none, none⟩

/-- Fixture: the row the claim loop stores for `claimProxyB` on behalf of
user 5. -/
def claimRowGen : ProxyRow :=
  ⟨5, "CM000001", 11, some 2, "ipv4", "user1", some "pass1", "10.0.0.5",
    some 8080, some 8080, none, some "DEU", none, none, "active"⟩

/-- Fixture: the database after user 5 claimed `claimProxyB`. -/
def claimDb1 : DbState := ⟨[], [claimRowGen], 1⟩

/-- Fixture: user 42 with balance 100 and an empty claim store. -/
def buyDbA : DbState := ⟨[⟨42, 100, 0⟩], [], 0⟩

/-- Fixture: user 42 with balance 100, while external key 7 is already
claimed by user 99. -/
def buyDbTaken : DbState :=
  ⟨[⟨42, 100, 0⟩],
   [⟨99, "CM000009", 7, some 1, "ipv4", "l", some "p", "1.1.1.1",
      none, none, none, none, none, none, "active"⟩], 9⟩

/-- Fixture: a session order for one private IPv4 proxy, one week, 10 USD. -/
def buyOrderA : Order :=
  ⟨"private_ipv4", "europe", "USA", "United States", 7, 1, 10⟩

/-- Fixture: the credential record the provisioning API returns for
external key 7. -/
def buyProxyA : ApiProxy :=
  ⟨some 7, some 1, some "log", some "pw", some "1.2.3.4",
    none, some 8080, some 1080, some "USA", none, none⟩

/-- Fixture: oracles for a purchase whose buy order reports external key 7
and whose credential fetches keep returning exactly that record. -/
def buyOracleTaken : BuyOracles :=
  ⟨.ok 10, .ok ⟨"success", some ⟨some 5, .array [some 7], [], []⟩⟩,
   fun _ => .ok [buyProxyA]⟩

/-- Fixture: oracles for a purchase whose external buy order throws. -/
def buyOracleFail : BuyOracles :=
  ⟨.ok 10, .error "API down", fun _ => .ok []⟩

/-- Fixture: oracles whose every external call throws (they must never be
reached on the validation-failure path). -/
def invalidOracle : BuyOracles :=
  ⟨.error "unreachable", .error "unreachable", fun _ => .error "unreachable"⟩

set_option maxRecDepth 100000

/-! ## Helper lemmas about two-decimal rounding -/

/-- Rounding to cents preserves non-negativity. -/
theorem toFixed2_nonneg {x : ℚ} (h : 0 ≤ x) : 0 ≤ toFixed2 x := by
  unfold toFixed2
  have h1 : (0 : ℚ) ≤ x * 100 + 1 / 2 := by nlinarith
  have h2 : (0 : ℤ) ≤ ⌊x * 100 + 1 / 2⌋ := Int.floor_nonneg.mpr h1
  have h3 : (0 : ℚ) ≤ (⌊x * 100 + 1 / 2⌋ : ℚ) := by exact_mod_cast h2
  positivity

/-- Rounding to cents is idempotent. -/
theorem toFixed2_idem (x : ℚ) : toFixed2 (toFixed2 x) = toFixed2 x := by
  unfold toFixed2
  have h1 : ((⌊x * 100 + 1 / 2⌋ : ℚ) / 100) * 100 = (⌊x * 100 + 1 / 2⌋ : ℚ) := by
    field_simp
  rw [h1]
  have h2 : ⌊(⌊x * 100 + 1 / 2⌋ : ℚ) + 1 / 2⌋ = ⌊x * 100 + 1 / 2⌋ := by
    rw [add_comm]
    rw [Int.floor_add_int]
    norm_num
  rw [h2]

/-! ## Claim C3 and C10: the Balance Ledger debit -/

/-- Counterexample to claim C3 as stated: `subtractBalance` does not fail
whenever the amount exceeds the balance.  With a stored balance of 10, a
debit of 10 + 1/250 (= 10.004) exceeds the balance, yet the two-decimal
rounding of the difference is `-0.00`, which is not negative, so the debit
succeeds and returns balance 0. -/
theorem subtractBalance_succeeds_beyond_balance :
    getBalance (addBalance emptyBalStore 1 10).1 1 = 10 ∧
    (10 : ℚ) < 10 + 1 / 250 ∧
    (subtractBalance (addBalance emptyBalStore 1 10).1 1 (10 + 1 / 250)).2 =
      Except.ok 0 ∧
    getBalance (subtractBalance (addBalance emptyBalStore 1 10).1 1
      (10 + 1 / 250)).1 1 = 0 := by
  with_unfolding_all decide

/-- Claim C3 (amended): `subtractBalance` fails with the
insufficient-funds error exactly when the two-decimal rounding of
`balance - amount` is negative (so a debit exceeding the balance by less
than half a cent succeeds with new balance 0); on failure the stored
balance observable through `getBalance` is unchanged, on success the new
balance is returned and stored, and the operation never stores a negative
balance. -/
theorem subtractBalance_rounded_guard (st : BalStore) (u : Nat) (a : ℚ) :
    (toFixed2 (getBalance st u - a) < 0 →
      (subtractBalance st u a).2 =
        Except.error "Недостаточно средств на балансе" ∧
      ∀ v, getBalance (subtractBalance st u a).1 v = getBalance st v) ∧
    (0 ≤ toFixed2 (getBalance st u - a) →
      (subtractBalance st u a).2 = Except.ok (toFixed2 (getBalance st u - a)) ∧
      getBalance (subtractBalance st u a).1 u =
        toFixed2 (getBalance st u - a)) ∧
    (∀ v, 0 ≤ getBalance st v → 0 ≤ getBalance (subtractBalance st u a).1 v) := by
  simp only [subtractBalance, getBalance]
  split_ifs with h1
  · exact ⟨fun _ => ⟨rfl, fun v => rfl⟩,
      fun h2 => absurd h1 (not_lt.mpr h2),
      fun v hv => hv⟩
  · refine ⟨fun h2 => absurd h2 h1, fun _ => ⟨rfl, by simp⟩, fun v hv => ?_⟩
    by_cases hvu : v = u
    · subst hvu
      simpa using le_of_not_lt h1
    · simpa [hvu] using hv

/-- Witness for `subtractBalance_rounded_guard`: debiting 5 from an empty
account fails with the insufficient-funds error and leaves the balance 0. -/
theorem subtractBalance_rounded_guard_witness :
    (subtractBalance emptyBalStore 1 5).2 =
      Except.error "Недостаточно средств на балансе" ∧
    getBalance (subtractBalance emptyBalStore 1 5).1 1 =
      getBalance emptyBalStore 1 := by
  have h := (subtractBalance_rounded_guard emptyBalStore 1 5).1
    (by with_unfolding_all decide)
  exact ⟨h.1, h.2 1⟩

/-- One ledger call with a non-negative `addBalance` amount keeps every
balance non-negative. -/
theorem applyBalOp_nonneg (st : BalStore) (op : BalOp)
    (h0 : ∀ u, 0 ≤ getBalance st u) (hop : addNonNeg op = true) :
    ∀ u, 0 ≤ getBalance (applyBalOp st op) u := by
  intro u
  cases op with
  | get w => exact h0 u
  | add w a =>
    have ha : 0 ≤ a := by simpa [addNonNeg] using hop
    by_cases h : u = w
    · subst h
      simp [applyBalOp, addBalance, getBalance]
      exact toFixed2_nonneg (add_nonneg (h0 u) ha)
    · simp [applyBalOp, addBalance, getBalance, h]
      exact h0 u
  | sub w a =>
    simp only [applyBalOp, subtractBalance, getBalance]
    split_ifs with h1
    · exact h0 u
    · by_cases h : u = w
      · subst h
        simpa using le_of_not_lt h1
      · simpa [h] using h0 u

/-- Claim C6: starting from any ledger state with non-negative balances,
any sequence of `getBalance` / `addBalance` (non-negative amount) /
`subtractBalance` calls keeps every balance non-negative after every
operation; no sequence of debits can drive a balance negative. -/
theorem balance_never_negative (st : BalStore) (ops : List BalOp)
    (h0 : ∀ u, 0 ≤ getBalance st u)
    (hops : ∀ op ∈ ops, addNonNeg op = true) :
    ∀ u, 0 ≤ getBalance (applyBalOps st ops) u := by
  induction ops generalizing st with
  | nil => exact h0
  | cons op rest ih =>
    simp only [applyBalOps]
    exact ih (applyBalOp st op)
      (applyBalOp_nonneg st op h0 (hops op (List.mem_cons_self op rest)))
      (fun op' hm => hops op' (List.mem_cons_of_mem op hm))

/-- Witness for `balance_never_negative`: a deposit of 0.50 followed by an
over-debit attempt of 0.75, a debit of 0.25 and a read leaves user 1 with a
non-negative balance. -/
theorem balance_never_negative_witness :
    0 ≤ getBalance (applyBalOps emptyBalStore
      [BalOp.add 1 (1 / 2), BalOp.sub 1 (3 / 4), BalOp.sub 1 (1 / 4),
       BalOp.get 1]) 1 :=
  balance_never_negative emptyBalStore _ (fun _ => le_refl 0)
    (by with_unfolding_all decide) 1

/-- One ledger call keeps every stored balance equal to its own
two-decimal rounding. -/
theorem applyBalOp_rounded (st : BalStore) (op : BalOp)
    (h0 : ∀ u, toFixed2 (getBalance st u) = getBalance st u) :
    ∀ u, toFixed2 (getBalance (applyBalOp st op) u) =
      getBalance (applyBalOp st op) u := by
  intro u
  cases op with
  | get w => exact h0 u
  | add w a =>
    by_cases h : u = w
    · subst h
      simp [applyBalOp, addBalance, getBalance]
      exact toFixed2_idem _
    · simp [applyBalOp, addBalance, getBalance, h]
      exact h0 u
  | sub w a =>
    simp only [applyBalOp, subtractBalance, getBalance]
    split_ifs with h1
    · exact h0 u
    · by_cases h : u = w
      · subst h
        simpa using toFixed2_idem _
      · simpa [h] using h0 u

/-- Claim C10: `addBalance` and `subtractBalance` store exactly
`parseFloat((old ± amount).toFixed(2))` (for a debit, whenever it is
accepted), and consequently every balance observable through `getBalance`
after any sequence of ledger calls from the empty store equals its own
two-decimal rounding — cent granularity, with a debit marginally above
the balance rounding to (negative) zero. -/
theorem balance_always_two_decimal :
    (∀ st u a, getBalance (addBalance st u a).1 u =
      toFixed2 (getBalance st u + a)) ∧
    (∀ st u a, 0 ≤ toFixed2 (getBalance st u - a) →
      getBalance (subtractBalance st u a).1 u =
        toFixed2 (getBalance st u - a)) ∧
    ∀ ops u, getBalance (applyBalOps emptyBalStore ops) u =
      toFixed2 (getBalance (applyBalOps emptyBalStore ops) u) := by
  refine ⟨fun st u a => ?_, fun st u a h => ?_, fun ops u => ?_⟩
  · simp [addBalance, getBalance]
  · have h2 : ¬ toFixed2 (st u - a) < 0 := not_lt.mpr h
    simp [subtractBalance, getBalance, h2]
  · have main : ∀ ops2 st,
        (∀ u, toFixed2 (getBalance st u) = getBalance st u) →
        ∀ u, toFixed2 (getBalance (applyBalOps st ops2) u) =
          getBalance (applyBalOps st ops2) u := by
      intro ops2
      induction ops2 with
      | nil => intro st h0 u; exact h0 u
      | cons op rest ih =>
        intro st h0 u
        exact ih (applyBalOp st op) (applyBalOp_rounded st op h0) u
    have h0 : ∀ u, toFixed2 (getBalance emptyBalStore u) =
        getBalance emptyBalStore u := by
      intro u
      show toFixed2 0 = 0
      with_unfolding_all decide
    exact (main ops emptyBalStore h0 u).symm

/-- Witness for `balance_always_two_decimal`: after a deposit of 10,
debiting 3 stores exactly the rounded difference 7. -/
theorem balance_always_two_decimal_witness :
    0 ≤ toFixed2 (getBalance (addBalance emptyBalStore 1 10).1 1 - 3) ∧
    getBalance (subtractBalance (addBalance emptyBalStore 1 10).1 1 3).1 1 =
      toFixed2 (getBalance (addBalance emptyBalStore 1 10).1 1 - 3) :=
  ⟨by with_unfolding_all decide,
   balance_always_two_decimal.2.1 (addBalance emptyBalStore 1 10).1 1 3
     (by with_unfolding_all decide)⟩

/-! ## Claim C1: at most one claim row per external key -/

/-- Appending one row changes the per-key row count by one exactly for the
key of that row. -/
theorem countKey_append_single (rows : List ProxyRow) (row : ProxyRow) (pid : Int) :
    countKey (rows ++ [row]) pid =
      countKey rows pid + (if row.proxyId = pid then 1 else 0) := by
  simp [countKey, List.filter_append, List.filter_cons]
  split_ifs with h <;> simp [h]

/-- The ownership `SELECT` finds a row for a key iff at least one row holds
that key. -/
theorem findByProxyId_isSome_iff (rows : List ProxyRow) (pid : Int) :
    (findByProxyId rows pid).isSome ↔ 1 ≤ countKey rows pid := by
  rw [findByProxyId, List.find?_isSome]
  constructor
  · rintro ⟨r, hr, hp⟩
    have hmem : r ∈ rows.filter (fun r => r.proxyId = pid) :=
      List.mem_filter.mpr ⟨hr, hp⟩
    have hlen := List.length_pos.mpr (List.ne_nil_of_mem hmem)
    simpa [countKey] using hlen
  · intro h
    have hne : rows.filter (fun r => r.proxyId = pid) ≠ [] := by
      intro hnil
      simp [countKey, hnil] at h
    obtain ⟨r, hr⟩ := List.exists_mem_of_ne_nil _ hne
    have hm := List.mem_filter.mp hr
    exact ⟨r, hm.1, hm.2⟩

/-- One atomic claim statement preserves the at-most-one-row-per-key
invariant: the constrained insert only adds a row for a key that has no
row yet. -/
theorem countKey_applyClaimOp_le (rows : List ProxyRow) (op : ClaimOp) (pid : Int)
    (h : countKey rows pid ≤ 1) : countKey (applyClaimOp rows op).1 pid ≤ 1 := by
  cases op with
  | check _ => exact h
  | insert row =>
    simp only [applyClaimOp, insertUnique]
    split_ifs with hs
    · exact h
    · rw [countKey_append_single]
      split_ifs with hp
      · have h0 : ¬ 1 ≤ countKey rows pid := by
          intro hge
          exact hs ((findByProxyId_isSome_iff rows row.proxyId).mpr (by rwa [hp]))
        omega
      · omega

/-- Atomic claim statements never remove rows. -/
theorem countKey_applyClaimOp_mono (rows : List ProxyRow) (op : ClaimOp) (pid : Int) :
    countKey rows pid ≤ countKey (applyClaimOp rows op).1 pid := by
  cases op with
  | check _ => exact le_refl _
  | insert row =>
    simp only [applyClaimOp, insertUnique]
    split_ifs with hs
    · exact le_refl _
    · rw [countKey_append_single]
      omega

/-- The invariant holds after any interleaving of atomic claim statements. -/
theorem countKey_applyClaimOps_le (rows : List ProxyRow) (ops : List ClaimOp)
    (pid : Int) (h : countKey rows pid ≤ 1) :
    countKey (applyClaimOps rows ops) pid ≤ 1 := by
  induction ops generalizing rows with
  | nil => exact h
  | cons op rest ih => exact ih _ (countKey_applyClaimOp_le rows op pid h)

/-- The per-key row count never decreases along an interleaving. -/
theorem countKey_applyClaimOps_mono (rows : List ProxyRow) (ops : List ClaimOp)
    (pid : Int) :
    countKey rows pid ≤ countKey (applyClaimOps rows ops) pid := by
  induction ops generalizing rows with
  | nil => exact le_refl _
  | cons op rest ih =>
    exact le_trans (countKey_applyClaimOp_mono rows op pid) (ih _)

/-- After an insert attempt on a key, at least one row holds that key
(either the insert won, or a row already existed and the attempt was
skipped). -/
theorem countKey_insert_pos (rows : List ProxyRow) (row : ProxyRow) (pid : Int)
    (hp : row.proxyId = pid) :
    1 ≤ countKey (applyClaimOp rows (ClaimOp.insert row)).1 pid := by
  simp only [applyClaimOp, insertUnique]
  split_ifs with hs
  · exact (findByProxyId_isSome_iff rows pid).mp (by rwa [hp] at hs)
  · rw [countKey_append_single, if_pos hp]
    omega

/-- An interleaving containing an insert attempt on a key leaves at least
one row for that key. -/
theorem countKey_applyClaimOps_pos (rows : List ProxyRow) (ops : List ClaimOp)
    (pid : Int) (h : ∃ op ∈ ops, isInsertOn pid op = true) :
    1 ≤ countKey (applyClaimOps rows ops) pid := by
  induction ops generalizing rows with
  | nil =>
    obtain ⟨op, hm, _⟩ := h
    exact absurd hm (List.not_mem_nil op)
  | cons op rest ih =>
    obtain ⟨op', hm, hins⟩ := h
    rcases List.mem_cons.mp hm with h1 | h1
    · subst h1
      cases op' with
      | check _ => simp [isInsertOn] at hins
      | insert row =>
        have hp : row.proxyId = pid := by simpa [isInsertOn] using hins
        exact le_trans (countKey_insert_pos rows row pid hp)
          (countKey_applyClaimOps_mono _ rest pid)
    · exact ih _ ⟨op', h1, hins⟩

/-- Claim C1: starting from a store holding at most one row for an
external key, any interleaving of concurrent claim attempts (ownership
checks and unique-constrained inserts) leaves at most one row for that
key; if some attempt inserts on the key, exactly one row remains; and a
losing insert (key already present) leaves the store unchanged with the
duplicate-key outcome, which the handler skips rather than surfaces as an
error. -/
theorem proxy_key_claimed_at_most_once (rows : List ProxyRow) (ops : List ClaimOp)
    (pid : Int) (h0 : countKey rows pid ≤ 1) :
    countKey (applyClaimOps rows ops) pid ≤ 1 ∧
    ((∃ op ∈ ops, isInsertOn pid op = true) →
      countKey (applyClaimOps rows ops) pid = 1) ∧
    (∀ row : ProxyRow, row.proxyId = pid → 1 ≤ countKey rows pid →
      applyClaimOp rows (ClaimOp.insert row) = (rows, OpOutcome.duplicateSkipped)) := by
  refine ⟨countKey_applyClaimOps_le rows ops pid h0, fun h => ?_, fun row hp hcnt => ?_⟩
  · exact le_antisymm (countKey_applyClaimOps_le rows ops pid h0)
      (countKey_applyClaimOps_pos rows ops pid h)
  · have hs : (findByProxyId rows row.proxyId).isSome := by
      rw [hp]
      exact (findByProxyId_isSome_iff rows pid).mpr hcnt
    simp [applyClaimOp, insertUnique, hs]

/-- Witness for `proxy_key_claimed_at_most_once`: two users racing to
insert key 7 into an empty store leave exactly one row, and the losing
insert is reported as a skipped duplicate. -/
theorem proxy_key_claimed_at_most_once_witness :
    countKey (applyClaimOps []
      [ClaimOp.insert claimRowA, ClaimOp.insert claimRowB]) 7 = 1 ∧
    applyClaimOp [claimRowA] (ClaimOp.insert claimRowB) =
      ([claimRowA], OpOutcome.duplicateSkipped) :=
  ⟨(proxy_key_claimed_at_most_once []
      [ClaimOp.insert claimRowA, ClaimOp.insert claimRowB] 7 (by decide)).2.1
      ⟨ClaimOp.insert claimRowA, by decide, by decide⟩,
   (proxy_key_claimed_at_most_once [claimRowA] [] 7 (by decide)).2.2
      claimRowB (by decide) (by decide)⟩

/-! ## Claim C8: idempotent re-claim by the same owner -/

/-- Claim C8: if a claim attempt by a user stored a row for a candidate
record, running the very same per-candidate claim step again for the same
user and record is a no-op: the store is unchanged, no duplicate row is
inserted, and the step reports the silent already-own skip rather than an
error. -/
theorem claim_second_attempt_noop (db db1 : DbState) (u : Nat) (t : String)
    (oid : Option Int) (p : ApiProxy) (row : ProxyRow)
    (h : claimCandidate db u t oid p = (db1, ClaimOutcome.claimed row)) :
    claimCandidate db1 u t oid p = (db1, ClaimOutcome.alreadyOwn) := by
  cases hid : p.id with
  | none => simp [claimCandidate, hid] at h
  | some pid =>
    by_cases hz : pid = 0
    · simp [claimCandidate, hid, hz] at h
    · cases hfind : findByProxyId db.userProxies pid with
      | some row' =>
        by_cases hown : row'.telegramId ≠ u <;>
          simp [claimCandidate, hid, hz, hfind, hown] at h
      | none =>
        by_cases hlip : truthyStr p.login ∧ truthyStr p.ip
        · simp [claimCandidate, hid, hz, hfind, hlip, insertUnique] at h
          obtain ⟨hdb, hrow⟩ := h
          subst hdb
          have hfind2 : List.find? (fun r => r.proxyId = pid) db.userProxies
              = none := by
            simpa [findByProxyId] using hfind
          simp [claimCandidate, hid, hz, findByProxyId, List.find?_append,
            hfind2, hlip]
        · simp [claimCandidate, hid, hz, hfind, hlip] at h

/-- Witness for `claim_second_attempt_noop`: user 5 claims record 11 into
an empty store; a second identical attempt leaves the store unchanged and
reports the already-own skip. -/
theorem claim_second_attempt_noop_witness :
    claimCandidate claimDb1 5 "ipv4" (some 2) claimProxyB =
      (claimDb1, ClaimOutcome.alreadyOwn) :=
  claim_second_attempt_noop claimDb0 claimDb1 5 "ipv4" (some 2) claimProxyB
    claimRowGen (by with_unfolding_all rfl)

/-! ## Claim C5: identifier uniqueness and the timestamp fallback -/

/-- Claim C5 (evaluated at the failing input): when the sequence query is
unavailable, two distinct `generateCmId` calls falling back within the
same millisecond (`Date.now() = 1700000000123`) both return the very same
identifier `CM000123`, violating the never-equal contract — the sequence
values 5 and 6 that would have kept them distinct are ignored on the
fallback path. -/
theorem generateCmId_fallback_collision :
    generateCmId true false 5 1700000000123 = Except.ok "CM000123" ∧
    generateCmId true false 6 1700000000123 = Except.ok "CM000123" := by
  with_unfolding_all decide

/-! ## Claim C7: the markup schedule at 90 versus 180 days -/

/-- Claim C7 (evaluated at the failing input): `calculateMarkupPercent`
returns 40 both for the 90-day and the 180-day breakpoint, so the schedule
is not strictly decreasing between those two supported periods (the final
branch announces 30% in its comment but keeps the 40-point reduction). -/
theorem markup_equal_at_90_and_180 :
    calculateMarkupPercent 90 = 40 ∧ calculateMarkupPercent 180 = 40 ∧
    ¬ calculateMarkupPercent 180 < calculateMarkupPercent 90 := by decide

/-! ## Claim C4: the payment loop under two paid observations -/

/-- Claim C4 (evaluated at the failing trace): when the five-second
status request outlasts the polling interval, two ticks are in flight
together; both observe `paid` and both execute the credit `UPDATE`, so a
25-dollar invoice credits 50 — the `clearInterval` guard only stops ticks
that have not fired yet and nothing tracks already-credited invoices.
When ticks never overlap, the first `paid` observation clears the
interval before any further tick fires, and exactly one credit happens. -/
theorem payment_check_double_credit :
    payRun 25 (payInit 0)
      [PayEvent.fire, PayEvent.fire,
       PayEvent.resolve 0 (some "paid"), PayEvent.resolve 1 (some "paid")] =
      ⟨true, 2, 50, 2, false, [TickPhase.finished, TickPhase.finished]⟩ ∧
    (payRun 25 (payInit 0)
      [PayEvent.fire, PayEvent.resolve 0 (some "active"),
       PayEvent.fire, PayEvent.resolve 1 (some "paid"),
       PayEvent.fire, PayEvent.resolve 2 (some "paid")]).credits = 1 := by
  with_unfolding_all decide

/-! ## Claims C2 and C9: the purchase transaction -/

/-- Claim C2 (amended): whenever the purchase transaction ends in a
thrown error — the zero-claims check included — `withTransaction` rolls
the database back, so the state after the handler (every balance
included) equals the pre-purchase state. -/
theorem buy_error_rolls_back_debit (userId : Nat) (session : Option Order)
    (oc : BuyOracles) (db : DbState) (e : BuyErr)
    (h : (buyAction userId session oc db).outcome = BuyOutcome.failed e) :
    (buyAction userId session oc db).db = db := by
  cases session with
  | none => rfl
  | some order =>
    by_cases hval : order.otype = "" ∨ order.country = "" ∨
        order.periodDays = 0 ∨ order.quantity ≤ 0 ∨ order.quantity > 100
    · simp [buyAction, hval]
    · cases hbt : buyTx userId order oc db with
      | mk r g =>
        cases r with
        | ok v =>
          obtain ⟨db', saved, price, bal⟩ := v
          simp [buyAction, hval, hbt] at h
        | error e2 =>
          simp [buyAction, hval, hbt]

/-- Witness for `buy_error_rolls_back_debit`: a purchase whose twelve
credential fetches only ever return a record already claimed by another
user saves zero rows, fails with the zero-claims error, and — although the
debit `UPDATE` ran — ends with the database exactly as before. -/
theorem buy_error_rolls_back_debit_witness :
    (buyAction 42 (some buyOrderA) buyOracleTaken buyDbTaken).outcome =
      BuyOutcome.failed BuyErr.zeroClaims ∧
    (buyAction 42 (some buyOrderA) buyOracleTaken buyDbTaken).ghost.debited =
      true ∧
    (buyAction 42 (some buyOrderA) buyOracleTaken buyDbTaken).db = buyDbTaken :=
  ⟨by with_unfolding_all rfl,
   by with_unfolding_all rfl,
   buy_error_rolls_back_debit 42 (some buyOrderA) buyOracleTaken buyDbTaken
     BuyErr.zeroClaims (by with_unfolding_all rfl)⟩

/-- Counterexample to the second half of claim C2: the zero-claims path is
not the only purchase path on which a performed debit is reverted.  Here
the external buy-order call fails after the debit `UPDATE` already ran
(ghost `debited = true`); the transaction aborts with the buy-failure
error — not the zero-claims error — and the debit is reverted all the
same. -/
theorem buy_debit_reverted_without_zero_claims :
    (buyAction 42 (some buyOrderA) buyOracleFail buyDbA).ghost.debited = true ∧
    (buyAction 42 (some buyOrderA) buyOracleFail buyDbA).outcome =
      BuyOutcome.failed (BuyErr.apiBuyFailed "API down") ∧
    BuyErr.apiBuyFailed "API down" ≠ BuyErr.zeroClaims ∧
    (buyAction 42 (some buyOrderA) buyOracleFail buyDbA).db = buyDbA := by
  with_unfolding_all decide

/-- Claim C9: a session order with a non-positive quantity, a quantity
above 100, or a missing type, country or period is rejected with the
invalid-parameters outcome before anything else happens: the database is
untouched and the ghost counters show no price call, no debit, no buy
call and no credential fetch. -/
theorem buy_rejects_invalid_order (userId : Nat) (order : Order)
    (oc : BuyOracles) (db : DbState)
    (h : order.quantity ≤ 0 ∨ 100 < order.quantity ∨ order.otype = "" ∨
      order.country = "" ∨ order.periodDays = 0) :
    buyAction userId (some order) oc db = ⟨db, BuyOutcome.invalidParams, ghost0⟩ := by
  have hval : order.otype = "" ∨ order.country = "" ∨ order.periodDays = 0 ∨
      order.quantity ≤ 0 ∨ order.quantity > 100 := by tauto
  simp [buyAction, hval]

/-- Witness for `buy_rejects_invalid_order`: an order for zero proxies is
rejected with no state change and no external effect, even with oracles
that would throw if consulted. -/
theorem buy_rejects_invalid_order_witness :
    buyAction 7 (some ⟨"private_ipv4", "europe", "FRA", "France", 7, 0, 10⟩)
        invalidOracle ⟨[], [], 0⟩ =
      ⟨⟨[], [], 0⟩, BuyOutcome.invalidParams, ghost0⟩ :=
  buy_rejects_invalid_order 7 ⟨"private_ipv4", "europe", "FRA", "France", 7, 0, 10⟩
    invalidOracle ⟨[], [], 0⟩ (Or.inl (by decide))
